/-
Verification of the engine-simulation core of the Tune-Semester-Project
repository (Tuning1.py).  The simulator's configuration derivation, per-state
sensor sampling, horsepower estimation, peak-statistics tracking, rolling MAP
history and the barometric pressure formula are embedded below; randomness is
modelled by explicit draw records constrained to the ranges the code passes to
the random library.
-/
import Mathlib

set_option maxRecDepth 8000

namespace Tuning

/-- Conversion factor `KPA_TO_PSI` (Tuning1.py line 18). -/
def KPA_TO_PSI : ℚ := 14503773773 / 100000000000

/-- `IDLE_TPS` (line 22). -/
def IDLE_TPS : ℤ := 0

/-- `CRUISE_TPS_MIN` (line 27). -/
def CRUISE_TPS_MIN : ℤ := 10

/-- `CRUISE_TPS_MAX` (line 28). -/
def CRUISE_TPS_MAX : ℤ := 30

/-- `ACCEL_RPM_MIN` (line 31): acceleration-start RPM. -/
def ACCEL_RPM_MIN : ℤ := 5000

/-- `ACCEL_TPS_MIN` (line 32). -/
def ACCEL_TPS_MIN : ℤ := 70

/-- `ACCEL_TPS_MAX` (line 33). -/
def ACCEL_TPS_MAX : ℤ := 100

/-- `DECEL_MAP_KPA` (line 39). -/
def DECEL_MAP_KPA : ℚ := 20

/-- `DECEL_TPS` (line 40). -/
def DECEL_TPS : ℤ := 0

/-- Python's `int()` applied to a rational: truncation toward zero. -/
def pyInt (q : ℚ) : ℤ := if 0 ≤ q then ⌊q⌋ else ⌈q⌉

/-- The user-supplied configuration of one simulation run, after the input
prompts (Tuning1.py lines 370-393).  `ATMOSPHERIC_PRESSURE_PSI` is the value
computed from the validated elevation. -/
structure Cfg where
  ATMOSPHERIC_PRESSURE_PSI : ℚ
  BASE_NATURALLY_ASPIRATED_PEAK_HP : ℚ
  USER_MAX_BOOST_PSI : ℚ
  ACCEL_RPM_MAX : ℤ
  IDLE_RPM : ℤ
deriving DecidableEq

/-- `BOOST_ACTIVE_PSI = ATMOSPHERIC_PRESSURE_PSI` (line 396). -/
def BOOST_ACTIVE_PSI (c : Cfg) : ℚ := c.ATMOSPHERIC_PRESSURE_PSI

/-- `RPM_AT_MAX_BOOST = int(ACCEL_RPM_MAX * 0.9)`, clamped to
`ACCEL_RPM_MIN + 500` when below `ACCEL_RPM_MIN` (lines 398-401). -/
def RPM_AT_MAX_BOOST (c : Cfg) : ℤ :=
  let r := pyInt ((c.ACCEL_RPM_MAX : ℚ) * (9 / 10))
  if r < ACCEL_RPM_MIN then ACCEL_RPM_MIN + 500 else r

/-- `CRUISE_RPM_MAX = int(ACCEL_RPM_MIN * 0.9)` (line 404). -/
def CRUISE_RPM_MAX : ℤ := pyInt ((ACCEL_RPM_MIN : ℚ) * (9 / 10))

/-- `CRUISE_RPM_MIN = int(IDLE_RPM * 1.5)` (line 405). -/
def CRUISE_RPM_MIN (c : Cfg) : ℤ := pyInt ((c.IDLE_RPM : ℚ) * (15 / 10))

/-- `DECEL_RPM_MIN = IDLE_RPM + 100` (line 407). -/
def DECEL_RPM_MIN (c : Cfg) : ℤ := c.IDLE_RPM + 100

/-- `DECEL_RPM_MAX = ACCEL_RPM_MIN - 100` (line 408). -/
def DECEL_RPM_MAX : ℤ := ACCEL_RPM_MIN - 100

/-- `IDLE_MAP = ATMOSPHERIC_PRESSURE_PSI * 0.3` (line 191). -/
def IDLE_MAP (c : Cfg) : ℚ := c.ATMOSPHERIC_PRESSURE_PSI * (3 / 10)

/-- `CRUISE_MAP_MIN = ATMOSPHERIC_PRESSURE_PSI * 0.4` (line 192). -/
def CRUISE_MAP_MIN (c : Cfg) : ℚ := c.ATMOSPHERIC_PRESSURE_PSI * (4 / 10)

/-- `CRUISE_MAP_MAX = ATMOSPHERIC_PRESSURE_PSI * 0.7` (line 193). -/
def CRUISE_MAP_MAX (c : Cfg) : ℚ := c.ATMOSPHERIC_PRESSURE_PSI * (7 / 10)

/-- `ACCEL_MAP_NA_MAX = ATMOSPHERIC_PRESSURE_PSI * 0.95` (line 194). -/
def ACCEL_MAP_NA_MAX (c : Cfg) : ℚ := c.ATMOSPHERIC_PRESSURE_PSI * (95 / 100)

/-- `ASSUMED_NA_WOT_MAP_PSI = ACCEL_MAP_NA_MAX` (line 195). -/
def ASSUMED_NA_WOT_MAP_PSI (c : Cfg) : ℚ := ACCEL_MAP_NA_MAX c

/-- `BASE_PEAK_HP_RPM = int(ACCEL_RPM_MAX * 0.8)`, clamped to
`ACCEL_RPM_MIN + 500` when below `ACCEL_RPM_MIN` (lines 198-200). -/
def BASE_PEAK_HP_RPM (c : Cfg) : ℤ :=
  let r := pyInt ((c.ACCEL_RPM_MAX : ℚ) * (8 / 10))
  if r < ACCEL_RPM_MIN then ACCEL_RPM_MIN + 500 else r

/-- `HP_UNIT_FACTOR` (lines 204-208): `BASE_NATURALLY_ASPIRATED_PEAK_HP /
(BASE_PEAK_HP_RPM * ASSUMED_NA_WOT_MAP_PSI)` when both factors of the
denominator are positive, else `0`. -/
def HP_UNIT_FACTOR (c : Cfg) : ℚ :=
  if 0 < BASE_PEAK_HP_RPM c ∧ 0 < ASSUMED_NA_WOT_MAP_PSI c then
    c.BASE_NATURALLY_ASPIRATED_PEAK_HP /
      ((BASE_PEAK_HP_RPM c : ℚ) * ASSUMED_NA_WOT_MAP_PSI c)
  else 0

/-- `DECEL_MAP_PSI = DECEL_MAP_KPA * KPA_TO_PSI` (line 211). -/
def DECEL_MAP_PSI : ℚ := DECEL_MAP_KPA * KPA_TO_PSI

/-- The input validation performed by the prompts (lines 370-393): elevation in
`[-400, 8000]` (which makes the computed atmospheric pressure positive),
peak HP at least `1`, boost target in `[round(atmospheric), 45]` (Python's
`round` is banker's rounding; it differs from `round` below only at exact
halves, which the pressure computation never produces), redline RPM in
`[5000, 10000]` and idle RPM in `[500, 1000]`. -/
@[reducible] def ValidCfg (c : Cfg) : Prop :=
  0 < c.ATMOSPHERIC_PRESSURE_PSI ∧
  1 ≤ c.BASE_NATURALLY_ASPIRATED_PEAK_HP ∧
  (round c.ATMOSPHERIC_PRESSURE_PSI : ℚ) ≤ c.USER_MAX_BOOST_PSI ∧
  c.USER_MAX_BOOST_PSI ≤ 45 ∧
  5000 ≤ c.ACCEL_RPM_MAX ∧ c.ACCEL_RPM_MAX ≤ 10000 ∧
  500 ≤ c.IDLE_RPM ∧ c.IDLE_RPM ≤ 1000

/-- The five values of `current_state` (lines 182, 226, 235, 244, 278, 287). -/
inductive EngineState where
  | idle
  | cruise
  | accel_na
  | accel_boost
  | decel
deriving DecidableEq

/-- The outcomes of the random library calls one loop iteration can make:
`rpmDraw` for the per-state `randint` on RPM, `mapDraw` for the `uniform` on
MAP, `tpsDraw` for the `randint` on TPS, `targetRpm` and `rampDraw` for the
boosted-acceleration target and climb increment, `patience` for the
state-duration threshold and `next` for the successor chosen by `choice`. -/
structure Draws where
  rpmDraw : ℤ
  mapDraw : ℚ
  tpsDraw : ℤ
  targetRpm : ℤ
  rampDraw : ℤ
  patience : ℤ
  next : EngineState
deriving DecidableEq

/-- The RPM produced in the boosted-acceleration state (lines 249-256):
climb from the previous sample toward the target, capped at redline, or
jitter around the target once reached. -/
def boostRpm (c : Cfg) (prev : ℤ) (d : Draws) : ℤ :=
  if prev < d.targetRpm then min (prev + d.rampDraw) c.ACCEL_RPM_MAX
  else d.rpmDraw

/-- The boost target MAP for a given RPM (lines 259-267). -/
def boostTargetMap (c : Cfg) (rpm : ℤ) : ℚ :=
  if ACCEL_RPM_MIN < RPM_AT_MAX_BOOST c then
    let p := ((rpm : ℚ) - (ACCEL_RPM_MIN : ℚ)) /
      ((RPM_AT_MAX_BOOST c : ℚ) - (ACCEL_RPM_MIN : ℚ))
    let p := max 0 (min 1 p)
    max (ACCEL_MAP_NA_MAX c)
      (c.ATMOSPHERIC_PRESSURE_PSI +
        p * (c.USER_MAX_BOOST_PSI - c.ATMOSPHERIC_PRESSURE_PSI))
  else c.USER_MAX_BOOST_PSI

/-- The RPM sampled by the current state (lines 221-283). -/
def sampleRpm (c : Cfg) (st : EngineState) (prev : ℤ) (d : Draws) : ℤ :=
  match st with
  | .idle => d.rpmDraw
  | .cruise => d.rpmDraw
  | .accel_na => d.rpmDraw
  | .accel_boost => boostRpm c prev d
  | .decel => d.rpmDraw

/-- The MAP sampled by the current state (lines 221-284); in the
boosted-acceleration state the uniform draw around the target MAP is clamped
to `[ATMOSPHERIC_PRESSURE_PSI * 0.1, USER_MAX_BOOST_PSI]` (line 271). -/
def sampleMap (c : Cfg) (st : EngineState) (_prev : ℤ) (d : Draws) : ℚ :=
  match st with
  | .idle => d.mapDraw
  | .cruise => d.mapDraw
  | .accel_na => d.mapDraw
  | .accel_boost =>
      max (c.ATMOSPHERIC_PRESSURE_PSI * (1 / 10))
        (min d.mapDraw c.USER_MAX_BOOST_PSI)
  | .decel => d.mapDraw

/-- The TPS sampled by the current state. -/
def sampleTps (st : EngineState) (d : Draws) : ℤ :=
  match st with
  | .idle => IDLE_TPS
  | .cruise => d.tpsDraw
  | .accel_na => d.tpsDraw
  | .accel_boost => d.tpsDraw
  | .decel => DECEL_TPS

/-- The constraints the random library guarantees on one iteration's draws,
state by state: each `randint(a, b)` result lies in `[a, b]`, each
`uniform(a, b)` result lies in `[a, b]`, and each `choice` result is a member
of the offered list (lines 221-288). -/
@[reducible] def DrawsValid (c : Cfg) (st : EngineState) (prev : ℤ) (d : Draws) : Prop :=
  match st with
  | .idle =>
      c.IDLE_RPM - 50 ≤ d.rpmDraw ∧ d.rpmDraw ≤ c.IDLE_RPM + 50 ∧
      IDLE_MAP c - 1/2 ≤ d.mapDraw ∧ d.mapDraw ≤ IDLE_MAP c + 1/2 ∧
      2 ≤ d.patience ∧ d.patience ≤ 5 ∧
      d.next ∈ [EngineState.cruise, EngineState.accel_na, EngineState.accel_boost]
  | .cruise =>
      CRUISE_RPM_MIN c ≤ d.rpmDraw ∧ d.rpmDraw ≤ CRUISE_RPM_MAX ∧
      CRUISE_MAP_MIN c - 1/2 ≤ d.mapDraw ∧ d.mapDraw ≤ CRUISE_MAP_MAX c + 1/2 ∧
      CRUISE_TPS_MIN ≤ d.tpsDraw ∧ d.tpsDraw ≤ CRUISE_TPS_MAX ∧
      3 ≤ d.patience ∧ d.patience ≤ 7 ∧
      d.next ∈ [EngineState.accel_boost, EngineState.accel_na,
        EngineState.decel, EngineState.idle]
  | .accel_na =>
      ACCEL_RPM_MIN ≤ d.rpmDraw ∧
      d.rpmDraw ≤ min c.ACCEL_RPM_MAX (RPM_AT_MAX_BOOST c - 500) ∧
      ACCEL_MAP_NA_MAX c - 1/2 ≤ d.mapDraw ∧ d.mapDraw ≤ ACCEL_MAP_NA_MAX c + 1/2 ∧
      ACCEL_TPS_MIN ≤ d.tpsDraw ∧ d.tpsDraw ≤ ACCEL_TPS_MAX ∧
      2 ≤ d.patience ∧ d.patience ≤ 5 ∧
      d.next ∈ [EngineState.cruise, EngineState.decel,
        EngineState.accel_boost, EngineState.idle]
  | .accel_boost =>
      ACCEL_RPM_MIN ≤ d.targetRpm ∧ d.targetRpm ≤ c.ACCEL_RPM_MAX ∧
      (prev < d.targetRpm → 100 ≤ d.rampDraw ∧ d.rampDraw ≤ 300) ∧
      (¬ prev < d.targetRpm →
        d.targetRpm - 100 ≤ d.rpmDraw ∧ d.rpmDraw ≤ d.targetRpm + 100) ∧
      boostTargetMap c (boostRpm c prev d) - 1/2 ≤ d.mapDraw ∧
      d.mapDraw ≤ boostTargetMap c (boostRpm c prev d) + 1/2 ∧
      ACCEL_TPS_MIN ≤ d.tpsDraw ∧ d.tpsDraw ≤ ACCEL_TPS_MAX ∧
      2 ≤ d.patience ∧ d.patience ≤ 5 ∧
      d.next ∈ [EngineState.cruise, EngineState.decel, EngineState.idle]
  | .decel =>
      DECEL_RPM_MIN c ≤ d.rpmDraw ∧ d.rpmDraw ≤ DECEL_RPM_MAX ∧
      DECEL_MAP_PSI - 1/2 ≤ d.mapDraw ∧ d.mapDraw ≤ DECEL_MAP_PSI + 1/2 ∧
      2 ≤ d.patience ∧ d.patience ≤ 5 ∧
      d.next = EngineState.idle

instance (c : Cfg) (st : EngineState) (prev : ℤ) (d : Draws) :
    Decidable (DrawsValid c st prev d) := by
  cases st <;> exact inferInstance

/-- The horsepower estimate of one sample (lines 297-301): `0` when the unit
factor is zero, the RPM is under `500` or the MAP is under `2` PSI, otherwise
`HP_UNIT_FACTOR * rpm * map` capped at `BASE_NATURALLY_ASPIRATED_PEAK_HP * 2.5`. -/
def estimated_hp (c : Cfg) (rpm : ℤ) (map : ℚ) : ℚ :=
  if HP_UNIT_FACTOR c = 0 ∨ rpm < 500 ∨ map < 2 then 0
  else min (HP_UNIT_FACTOR c * (rpm : ℚ) * map)
    (c.BASE_NATURALLY_ASPIRATED_PEAK_HP * (5 / 2))

/-- The peak-statistics accumulator (lines 83-87). -/
structure Stats where
  max_hp_achieved : ℚ
  max_rpm_achieved : ℤ
  boost_at_max_hp : ℚ
  max_boost_achieved_psi : ℚ
deriving DecidableEq

/-- The peak-statistics update of one iteration (lines 306-312): a strictly
larger horsepower estimate records the new peak and the MAP and RPM at that
moment; a MAP above `BOOST_ACTIVE_PSI` raises the maximum boost seen. -/
def updateStats (c : Cfg) (rpm : ℤ) (map : ℚ) (s : Stats) : Stats :=
  let hp := estimated_hp c rpm map
  let s1 :=
    if s.max_hp_achieved < hp then
      { s with max_hp_achieved := hp, boost_at_max_hp := map,
               max_rpm_achieved := rpm }
    else s
  if BOOST_ACTIVE_PSI c < map then
    { s1 with max_boost_achieved_psi := max s1.max_boost_achieved_psi map }
  else s1

/-- The stats at simulation start: the module-level zeros (lines 83-87) with
`max_boost_achieved_psi` reset to `BOOST_ACTIVE_PSI` (line 188). -/
def initStats (c : Cfg) : Stats :=
  { max_hp_achieved := 0, max_rpm_achieved := 0, boost_at_max_hp := 0,
    max_boost_achieved_psi := BOOST_ACTIVE_PSI c }

/-- The mutable per-run state of the simulation loop: `current_state`,
`state_duration`, the latest sample's RPM and MAP kept in `current_sim_data`
(the boosted-acceleration ramp reads the previous RPM back), and the peak
statistics. -/
structure SimState where
  state : EngineState
  duration : ℚ
  rpm : ℤ
  map : ℚ
  stats : Stats
deriving DecidableEq

/-- The state at simulation start (lines 74-80, 182-188): idle, zero duration,
zero sample. -/
def initSimState (c : Cfg) : SimState :=
  { state := .idle, duration := 0, rpm := 0, map := 0, stats := initStats c }

/-- One iteration of the simulation loop (lines 214-319): sample the current
state, transition when the elapsed duration exceeds the drawn patience
threshold (resetting the duration), update the shared sample, the peak
statistics, and advance the duration by the 0.1 s tick. -/
def tick (c : Cfg) (s : SimState) (d : Draws) : SimState :=
  let rpm := sampleRpm c s.state s.rpm d
  let map := sampleMap c s.state s.rpm d
  let trans := (d.patience : ℚ) < s.duration
  { state := if trans then d.next else s.state
    duration := (if trans then 0 else s.duration) + 1 / 10
    rpm := rpm
    map := map
    stats := updateStats c rpm map s.stats }

/-- A run of consecutive iterations driven by a list of draw records. -/
def runTicks (c : Cfg) (s : SimState) (ds : List Draws) : SimState :=
  ds.foldl (tick c) s

/-- Every iteration of the run uses draws inside the ranges the code hands to
the random library for the state it is in at that moment. -/
def RunValid (c : Cfg) : SimState → List Draws → Prop
  | _, [] => True
  | s, d :: ds => DrawsValid c s.state s.rpm d ∧ RunValid c (tick c s d) ds

/-- One append to the rolling MAP history deque (lines 69, 315): capacity-450
ring buffer, oldest entries evicted on overflow. -/
def dequeAppend (cap : ℕ) (xs : List ℚ) (x : ℚ) : List ℚ :=
  let ys := xs ++ [x]
  if cap < ys.length then ys.drop (ys.length - cap) else ys

/-- The initial contents of `map_history` (line 69): 450 zeros. -/
def map_history_init : List ℚ := List.replicate 450 0

/-- The MAP history after a sequence of appended values. -/
def appendAll (vs : List ℚ) : List ℚ :=
  vs.foldl (dequeAppend 450) map_history_init

/-- The boost-status values (line 78 and spec §3). -/
inductive BoostStatus where
  | Waiting
  | Active
  | AtmosphericNoBoost
  | VacuumNoBoost
deriving DecidableEq

/-- Modelled from the spec: the boost-status classification of a sample.
Tuning1.py only declares the `BoostStatus` field of `current_sim_data`
(line 78); the classification itself lives in the repository's other variants,
which are not under src/.  Spec §4.3: `Active` if `map > boost_active_threshold`;
else `AtmosphericNoBoost` if `map > atmospheric*0.9`; else `VacuumNoBoost`. -/
def boostStatus (c : Cfg) (map : ℚ) : BoostStatus :=
  if BOOST_ACTIVE_PSI c < map then .Active
  else if c.ATMOSPHERIC_PRESSURE_PSI * (9 / 10) < map then .AtmosphericNoBoost
  else .VacuumNoBoost

/-- `calculate_atmospheric_pressure` (lines 326-342): the international
barometric formula with the guard that returns `0` pressure once
`L * elevation_m >= T0`, converted from kPa to PSI. -/
noncomputable def calculate_atmospheric_pressure (elevation_m : ℝ) : ℝ :=
  if (288.15 : ℝ) ≤ 0.0065 * elevation_m then 0
  else
    (101.325 * (1 - 0.0065 * elevation_m / 288.15) ^
      ((9.80665 * 0.0289644) / (8.31447 * 0.0065) : ℝ)) * 0.14503773773

/-- A validated configuration for concrete runs: 14.7 PSI atmosphere, 300 HP,
20 PSI boost target, 7000 redline, 800 idle. -/
def cfgMain : Cfg := ⟨147/10, 300, 20, 7000, 800⟩

/-- A configuration that passes every input prompt (redline 6000) yet makes the
naturally-aspirated acceleration `randint` range empty. -/
def cfgBug : Cfg := ⟨147/10, 300, 20, 6000, 800⟩

/-- Same as `cfgMain` with redline 7001. -/
def cfgRound : Cfg := ⟨147/10, 300, 20, 7001, 800⟩

/-- Idle-state draws that keep the state machine in idle. -/
def dIdle : Draws := ⟨800, 441/100, 0, 5000, 100, 5, .cruise⟩

/-- Idle-state draws whose patience threshold 2 is exceeded at duration 2.1,
transitioning to naturally-aspirated acceleration. -/
def dTrans : Draws := ⟨800, 441/100, 0, 5000, 100, 2, .accel_na⟩

/-- Accel-NA draws: 5800 RPM, 14.4 PSI. -/
def dAccelA : Draws := ⟨5800, 144/10, 70, 5000, 100, 5, .cruise⟩

/-- Accel-NA draws: 5790 RPM, 14.46 PSI — less RPM but more horsepower than
`dAccelA`. -/
def dAccelB : Draws := ⟨5790, 1446/100, 70, 5000, 100, 5, .cruise⟩

/-- Boosted-acceleration draws at the jitter branch's upper end: target RPM at
redline, jitter draw 100 above it. -/
def dJitter : Draws := ⟨7100, 20, 70, 7000, 100, 5, .cruise⟩

/-- 21 idle ticks (reaching duration 2.1) followed by the transition tick into
naturally-aspirated acceleration. -/
def dsReach : List Draws := List.replicate 21 dIdle ++ [dTrans]

/-- `dsReach` followed by one accel-NA tick at 5800 RPM. -/
def dsRunA : List Draws := dsReach ++ [dAccelA]

/-- `dsRunA` followed by one accel-NA tick at 5790 RPM, whose higher
horsepower rewrites `max_rpm_achieved` downward. -/
def dsRunB : List Draws := dsRunA ++ [dAccelB]

lemma ACCEL_RPM_MIN_le_RPM_AT_MAX_BOOST (c : Cfg) :
    ACCEL_RPM_MIN ≤ RPM_AT_MAX_BOOST c := by
  simp only [RPM_AT_MAX_BOOST]
  split <;> omega

lemma ACCEL_RPM_MIN_le_BASE_PEAK_HP_RPM (c : Cfg) :
    ACCEL_RPM_MIN ≤ BASE_PEAK_HP_RPM c := by
  simp only [BASE_PEAK_HP_RPM]
  split <;> omega

lemma ASSUMED_NA_WOT_MAP_PSI_pos (c : Cfg) (h : 0 < c.ATMOSPHERIC_PRESSURE_PSI) :
    0 < ASSUMED_NA_WOT_MAP_PSI c := by
  simp only [ASSUMED_NA_WOT_MAP_PSI, ACCEL_MAP_NA_MAX]
  positivity

lemma HP_UNIT_FACTOR_pos (c : Cfg) (hc : ValidCfg c) : 0 < HP_UNIT_FACTOR c := by
  obtain ⟨hatm, hbase, -, -, -, -, -, -⟩ := hc
  have h1 : (0 : ℤ) < BASE_PEAK_HP_RPM c :=
    lt_of_lt_of_le (by norm_num [ACCEL_RPM_MIN]) (ACCEL_RPM_MIN_le_BASE_PEAK_HP_RPM c)
  have h2 : 0 < ASSUMED_NA_WOT_MAP_PSI c := ASSUMED_NA_WOT_MAP_PSI_pos c hatm
  rw [HP_UNIT_FACTOR, if_pos ⟨h1, h2⟩]
  have h1q : (0 : ℚ) < (BASE_PEAK_HP_RPM c : ℚ) := by exact_mod_cast h1
  exact div_pos (by linarith) (mul_pos h1q h2)

lemma estimated_hp_bounds (c : Cfg) (hc : ValidCfg c) (rpm : ℤ) (map : ℚ) :
    0 ≤ estimated_hp c rpm map ∧
    estimated_hp c rpm map ≤ c.BASE_NATURALLY_ASPIRATED_PEAK_HP * (5 / 2) := by
  have hf := HP_UNIT_FACTOR_pos c hc
  have hbase : 1 ≤ c.BASE_NATURALLY_ASPIRATED_PEAK_HP := hc.2.1
  unfold estimated_hp
  split
  · constructor
    · exact le_refl 0
    · linarith
  · rename_i hguard
    push_neg at hguard
    obtain ⟨-, hrpm, hmap⟩ := hguard
    have hrpmq : (500 : ℚ) ≤ (rpm : ℚ) := by exact_mod_cast hrpm
    constructor
    · exact le_min (mul_nonneg (mul_nonneg hf.le (by linarith)) (by linarith))
        (by linarith)
    · exact min_le_right _ _

/-- C1: for every validated configuration and every simulation tick — any
state, previous RPM and draws inside the ranges handed to the random library —
the sample's estimated horsepower is at least 0 and at most
`2.5 * BASE_NATURALLY_ASPIRATED_PEAK_HP`. -/
theorem C1_estimated_hp_in_range (c : Cfg) (hc : ValidCfg c) (st : EngineState)
    (prev : ℤ) (d : Draws) (hd : DrawsValid c st prev d) :
    0 ≤ estimated_hp c (sampleRpm c st prev d) (sampleMap c st prev d) ∧
    estimated_hp c (sampleRpm c st prev d) (sampleMap c st prev d) ≤
      c.BASE_NATURALLY_ASPIRATED_PEAK_HP * (5 / 2) :=
  estimated_hp_bounds c hc _ _

theorem C1_witness :
    0 ≤ estimated_hp cfgMain (sampleRpm cfgMain .idle 0 dIdle)
          (sampleMap cfgMain .idle 0 dIdle) ∧
    estimated_hp cfgMain (sampleRpm cfgMain .idle 0 dIdle)
          (sampleMap cfgMain .idle 0 dIdle) ≤
      cfgMain.BASE_NATURALLY_ASPIRATED_PEAK_HP * (5 / 2) :=
  C1_estimated_hp_in_range cfgMain
    (by norm_num [ValidCfg, cfgMain, round_eq]) .idle 0 dIdle
    (by norm_num [DrawsValid, dIdle, cfgMain, IDLE_MAP])

/-- C2 (code bug): the configuration `cfgBug` — elevation-derived pressure
14.7 PSI, 300 HP, boost 20 PSI, redline 6000, idle 800 — passes every input
prompt, and a fully in-range run starting at the simulation start reaches the
naturally-aspirated acceleration state; but there the rpm sampling range
`[ACCEL_RPM_MIN, min(ACCEL_RPM_MAX, RPM_AT_MAX_BOOST - 500)]` is empty
(`[5000, 4900]`), so `random.randint` raises `ValueError` mid-run. -/
theorem C2_mid_run_error_reachable :
    ValidCfg cfgBug ∧ RunValid cfgBug (initSimState cfgBug) dsReach ∧
    (runTicks cfgBug (initSimState cfgBug) dsReach).state = .accel_na ∧
    min cfgBug.ACCEL_RPM_MAX (RPM_AT_MAX_BOOST cfgBug - 500) < ACCEL_RPM_MIN := by
  norm_num [cfgBug, dsReach, dIdle, dTrans, ValidCfg, RunValid, runTicks, tick,
    DrawsValid, sampleRpm, sampleMap, sampleTps, updateStats, estimated_hp,
    initSimState, initStats, HP_UNIT_FACTOR, BASE_PEAK_HP_RPM, ACCEL_RPM_MIN,
    ASSUMED_NA_WOT_MAP_PSI, ACCEL_MAP_NA_MAX, IDLE_MAP, BOOST_ACTIVE_PSI,
    RPM_AT_MAX_BOOST, pyInt, List.replicate, round_eq, boostRpm, boostTargetMap]

lemma updateStats_max_hp_mono (c : Cfg) (rpm : ℤ) (map : ℚ) (s : Stats) :
    s.max_hp_achieved ≤ (updateStats c rpm map s).max_hp_achieved := by
  by_cases hA : s.max_hp_achieved < estimated_hp c rpm map <;>
    by_cases hB : BOOST_ACTIVE_PSI c < map <;>
      simp [updateStats, hA, hB] <;> linarith

lemma updateStats_max_boost_mono (c : Cfg) (rpm : ℤ) (map : ℚ) (s : Stats) :
    s.max_boost_achieved_psi ≤ (updateStats c rpm map s).max_boost_achieved_psi := by
  by_cases hA : s.max_hp_achieved < estimated_hp c rpm map <;>
    by_cases hB : BOOST_ACTIVE_PSI c < map <;>
      simp [updateStats, hA, hB]

/-- C5 (amended): within one run, `max_hp_achieved` and
`max_boost_achieved_psi` are monotonically non-decreasing from tick to tick,
and `max_boost_achieved_psi` starts at the boost-active threshold, so that
`max_boost == threshold` represents "no boost ever seen".  (The other two peak
fields, `max_rpm_achieved` and `boost_at_max_hp`, record the RPM and MAP of
the tick that set the horsepower peak and can decrease; see the
counterexample.) -/
theorem C5_peak_stats_amended (c : Cfg) (s : SimState) (d : Draws) :
    s.stats.max_hp_achieved ≤ (tick c s d).stats.max_hp_achieved ∧
    s.stats.max_boost_achieved_psi ≤ (tick c s d).stats.max_boost_achieved_psi ∧
    (initSimState c).stats.max_boost_achieved_psi = BOOST_ACTIVE_PSI c := by
  refine ⟨?_, ?_, rfl⟩
  · exact updateStats_max_hp_mono c _ _ s.stats
  · exact updateStats_max_boost_mono c _ _ s.stats

/-- C5 (counterexample): a run of `cfgMain` from the simulation start, with
every draw in range, in which the 24th tick raises the horsepower peak at a
lower RPM: `max_rpm_achieved` falls from 5800 to 5790, so not every peak
field is monotonically non-decreasing. -/
theorem C5_peak_stats_counterexample :
    ValidCfg cfgMain ∧ RunValid cfgMain (initSimState cfgMain) dsRunB ∧
    (runTicks cfgMain (initSimState cfgMain) dsRunA).stats.max_rpm_achieved = 5800 ∧
    (runTicks cfgMain (initSimState cfgMain) dsRunB).stats.max_rpm_achieved = 5790 := by
  norm_num [cfgMain, dsRunB, dsRunA, dsReach, dIdle, dTrans, dAccelA, dAccelB,
    ValidCfg, RunValid, runTicks, tick,
    DrawsValid, sampleRpm, sampleMap, sampleTps, updateStats, estimated_hp,
    initSimState, initStats, HP_UNIT_FACTOR, BASE_PEAK_HP_RPM, ACCEL_RPM_MIN,
    ASSUMED_NA_WOT_MAP_PSI, ACCEL_MAP_NA_MAX, IDLE_MAP, BOOST_ACTIVE_PSI,
    RPM_AT_MAX_BOOST, pyInt, List.replicate, round_eq, boostRpm, boostTargetMap,
    CRUISE_RPM_MIN, CRUISE_RPM_MAX, ACCEL_TPS_MIN, ACCEL_TPS_MAX]

/-- C9 (counterexample): at the validated redline 7001, the code's
`int(ACCEL_RPM_MAX * 0.9)` truncates 6300.9 to 6300, while the claim's
`round(redline_rpm * 0.9)` is 6301. -/
theorem C9_round_counterexample :
    ValidCfg cfgRound ∧ RPM_AT_MAX_BOOST cfgRound = 6300 ∧
    round ((cfgRound.ACCEL_RPM_MAX : ℚ) * (9 / 10)) = 6301 := by
  norm_num [ValidCfg, cfgRound, round_eq, RPM_AT_MAX_BOOST, pyInt, ACCEL_RPM_MIN]

/-- C9 (amended): for every validated redline, `RPM_AT_MAX_BOOST` equals the
truncation `⌊redline_rpm * 0.9⌋` (Python's `int`, which truncates rather than
rounds), and when that value falls below `ACCEL_RPM_MIN = 5000` it is clamped
to `ACCEL_RPM_MIN + 500`; in particular the result is always at least
`ACCEL_RPM_MIN`. -/
theorem C9_rpm_at_max_boost_amended (c : Cfg) (hc : ValidCfg c) :
    RPM_AT_MAX_BOOST c =
      (if ⌊(c.ACCEL_RPM_MAX : ℚ) * (9 / 10)⌋ < ACCEL_RPM_MIN
       then ACCEL_RPM_MIN + 500
       else ⌊(c.ACCEL_RPM_MAX : ℚ) * (9 / 10)⌋) ∧
    ACCEL_RPM_MIN ≤ RPM_AT_MAX_BOOST c := by
  refine ⟨?_, ACCEL_RPM_MIN_le_RPM_AT_MAX_BOOST c⟩
  have h5 : (5000 : ℤ) ≤ c.ACCEL_RPM_MAX := hc.2.2.2.2.1
  have h0 : (0 : ℚ) ≤ (c.ACCEL_RPM_MAX : ℚ) * (9 / 10) := by
    have : (0 : ℚ) ≤ (c.ACCEL_RPM_MAX : ℚ) := by exact_mod_cast h5.trans' (by norm_num)
    linarith
  simp only [RPM_AT_MAX_BOOST, pyInt, if_pos h0]

theorem C9_amended_witness :
    RPM_AT_MAX_BOOST cfgMain =
      (if ⌊(cfgMain.ACCEL_RPM_MAX : ℚ) * (9 / 10)⌋ < ACCEL_RPM_MIN
       then ACCEL_RPM_MIN + 500
       else ⌊(cfgMain.ACCEL_RPM_MAX : ℚ) * (9 / 10)⌋) ∧
    ACCEL_RPM_MIN ≤ RPM_AT_MAX_BOOST cfgMain :=
  C9_rpm_at_max_boost_amended cfgMain (by norm_num [ValidCfg, cfgMain, round_eq])

/-- C10: under every validated configuration, the sampled RPM of any tick in
any state never exceeds `ACCEL_RPM_MAX + 100`; every state other than boosted
acceleration stays at or below the redline, and so does the boosted ramp
branch; and the jitter branch can actually emit `redline + 100`, witnessed by
`dJitter` under `cfgMain`. -/
theorem C10_rpm_never_exceeds_redline_plus_100 (c : Cfg) (hc : ValidCfg c)
    (st : EngineState) (prev : ℤ) (d : Draws) (hd : DrawsValid c st prev d) :
    sampleRpm c st prev d ≤ c.ACCEL_RPM_MAX + 100 ∧
    (st ≠ .accel_boost → sampleRpm c st prev d ≤ c.ACCEL_RPM_MAX) ∧
    (prev < d.targetRpm → sampleRpm c st prev d ≤ c.ACCEL_RPM_MAX) ∧
    (DrawsValid cfgMain .accel_boost 7000 dJitter ∧
      sampleRpm cfgMain .accel_boost 7000 dJitter = cfgMain.ACCEL_RPM_MAX + 100) := by
  obtain ⟨-, -, -, -, hrl, hrh, hil, hih⟩ := hc
  have hcruise : CRUISE_RPM_MAX = 4500 := by
    norm_num [CRUISE_RPM_MAX, ACCEL_RPM_MIN, pyInt]
  have hmain : DrawsValid cfgMain .accel_boost 7000 dJitter ∧
      sampleRpm cfgMain .accel_boost 7000 dJitter = cfgMain.ACCEL_RPM_MAX + 100 := by
    norm_num [DrawsValid, dJitter, cfgMain, sampleRpm, boostRpm, boostTargetMap,
      RPM_AT_MAX_BOOST, pyInt, ACCEL_RPM_MIN, ACCEL_MAP_NA_MAX, ACCEL_TPS_MIN,
      ACCEL_TPS_MAX]
  cases st with
  | idle =>
      obtain ⟨h1, h2, -⟩ := hd
      exact ⟨by simp only [sampleRpm]; omega,
        fun _ => by simp only [sampleRpm]; omega, fun _ => by
          simp only [sampleRpm]; omega, hmain⟩
  | cruise =>
      obtain ⟨h1, h2, -⟩ := hd
      rw [hcruise] at h2
      exact ⟨by simp only [sampleRpm]; omega,
        fun _ => by simp only [sampleRpm]; omega, fun _ => by
          simp only [sampleRpm]; omega, hmain⟩
  | accel_na =>
      obtain ⟨h1, h2, -⟩ := hd
      have h3 : d.rpmDraw ≤ c.ACCEL_RPM_MAX := le_trans h2 (min_le_left _ _)
      exact ⟨by simp only [sampleRpm]; omega,
        fun _ => by simp only [sampleRpm]; omega, fun _ => by
          simp only [sampleRpm]; omega, hmain⟩
  | accel_boost =>
      obtain ⟨ht1, ht2, hramp, hjit, -⟩ := hd
      by_cases hcl : prev < d.targetRpm
      · have : sampleRpm c .accel_boost prev d ≤ c.ACCEL_RPM_MAX := by
          simp only [sampleRpm, boostRpm, if_pos hcl]
          exact min_le_right _ _
        exact ⟨by omega, fun h => absurd rfl h, fun _ => this, hmain⟩
      · obtain ⟨hj1, hj2⟩ := hjit hcl
        have : sampleRpm c .accel_boost prev d = d.rpmDraw := by
          simp only [sampleRpm, boostRpm, if_neg hcl]
        exact ⟨by omega, fun h => absurd rfl h, fun h => absurd h hcl, hmain⟩
  | decel =>
      obtain ⟨h1, h2, -⟩ := hd
      have h3 : DECEL_RPM_MAX = 4900 := by norm_num [DECEL_RPM_MAX, ACCEL_RPM_MIN]
      rw [h3] at h2
      exact ⟨by simp only [sampleRpm]; omega,
        fun _ => by simp only [sampleRpm]; omega, fun _ => by
          simp only [sampleRpm]; omega, hmain⟩

theorem C10_witness :
    sampleRpm cfgMain .idle 0 dIdle ≤ cfgMain.ACCEL_RPM_MAX + 100 ∧
    (EngineState.idle ≠ .accel_boost →
      sampleRpm cfgMain .idle 0 dIdle ≤ cfgMain.ACCEL_RPM_MAX) ∧
    ((0 : ℤ) < dIdle.targetRpm →
      sampleRpm cfgMain .idle 0 dIdle ≤ cfgMain.ACCEL_RPM_MAX) ∧
    (DrawsValid cfgMain .accel_boost 7000 dJitter ∧
      sampleRpm cfgMain .accel_boost 7000 dJitter = cfgMain.ACCEL_RPM_MAX + 100) :=
  C10_rpm_never_exceeds_redline_plus_100 cfgMain
    (by norm_num [ValidCfg, cfgMain, round_eq]) .idle 0 dIdle
    (by norm_num [DrawsValid, dIdle, cfgMain, IDLE_MAP])

/-- C7: under every validated configuration, `HP_UNIT_FACTOR` equals
`BASE_NATURALLY_ASPIRATED_PEAK_HP / (BASE_PEAK_HP_RPM * ASSUMED_NA_WOT_MAP_PSI)`
(the both-factors-positive branch is the one taken; the other branch yields 0,
disabling HP estimation without failing), and `estimated_hp` is 0 exactly
under the guard `HP_UNIT_FACTOR == 0 or rpm < 500 or map < 2`, otherwise
`min(HP_UNIT_FACTOR * rpm * map, BASE_NATURALLY_ASPIRATED_PEAK_HP * 2.5)`. -/
theorem C7_estimated_hp_formula (c : Cfg) (hc : ValidCfg c) (rpm : ℤ) (map : ℚ) :
    HP_UNIT_FACTOR c =
      c.BASE_NATURALLY_ASPIRATED_PEAK_HP /
        ((BASE_PEAK_HP_RPM c : ℚ) * ASSUMED_NA_WOT_MAP_PSI c) ∧
    ((HP_UNIT_FACTOR c = 0 ∨ rpm < 500 ∨ map < 2) → estimated_hp c rpm map = 0) ∧
    (500 ≤ rpm → 2 ≤ map →
      estimated_hp c rpm map =
        min (HP_UNIT_FACTOR c * (rpm : ℚ) * map)
          (c.BASE_NATURALLY_ASPIRATED_PEAK_HP * (5 / 2))) := by
  have hf := HP_UNIT_FACTOR_pos c hc
  refine ⟨?_, ?_, ?_⟩
  · have h1 : (0 : ℤ) < BASE_PEAK_HP_RPM c :=
      lt_of_lt_of_le (by norm_num [ACCEL_RPM_MIN]) (ACCEL_RPM_MIN_le_BASE_PEAK_HP_RPM c)
    have h2 : 0 < ASSUMED_NA_WOT_MAP_PSI c := ASSUMED_NA_WOT_MAP_PSI_pos c hc.1
    rw [HP_UNIT_FACTOR, if_pos ⟨h1, h2⟩]
  · intro h
    rw [estimated_hp, if_pos h]
  · intro h1 h2
    rw [estimated_hp, if_neg]
    push_neg
    exact ⟨ne_of_gt hf, h1, h2⟩

theorem C7_witness :
    HP_UNIT_FACTOR cfgMain =
      cfgMain.BASE_NATURALLY_ASPIRATED_PEAK_HP /
        ((BASE_PEAK_HP_RPM cfgMain : ℚ) * ASSUMED_NA_WOT_MAP_PSI cfgMain) ∧
    ((HP_UNIT_FACTOR cfgMain = 0 ∨ (6000 : ℤ) < 500 ∨ (10 : ℚ) < 2) →
      estimated_hp cfgMain 6000 10 = 0) ∧
    ((500 : ℤ) ≤ 6000 → (2 : ℚ) ≤ 10 →
      estimated_hp cfgMain 6000 10 =
        min (HP_UNIT_FACTOR cfgMain * ((6000 : ℤ) : ℚ) * 10)
          (cfgMain.BASE_NATURALLY_ASPIRATED_PEAK_HP * (5 / 2))) :=
  C7_estimated_hp_formula cfgMain (by norm_num [ValidCfg, cfgMain, round_eq]) 6000 10

/-- C4: the boost-status classification (modelled from the spec, see
`boostStatus`) marks a sample `Active` exactly when its MAP is strictly above
the boost-active threshold — the boundary itself is not `Active` —, else
`AtmosphericNoBoost` exactly when the MAP is above 90% of atmospheric, else
`VacuumNoBoost`. -/
theorem C4_boost_status_classification (c : Cfg) (map : ℚ) :
    (boostStatus c map = .Active ↔ BOOST_ACTIVE_PSI c < map) ∧
    (boostStatus c map = .AtmosphericNoBoost ↔
      (map ≤ BOOST_ACTIVE_PSI c ∧ c.ATMOSPHERIC_PRESSURE_PSI * (9 / 10) < map)) ∧
    (boostStatus c map = .VacuumNoBoost ↔
      (map ≤ BOOST_ACTIVE_PSI c ∧ map ≤ c.ATMOSPHERIC_PRESSURE_PSI * (9 / 10))) ∧
    (boostStatus c (BOOST_ACTIVE_PSI c) = .AtmosphericNoBoost ∨
      boostStatus c (BOOST_ACTIVE_PSI c) = .VacuumNoBoost) := by
  have step : ∀ (m : ℚ) (P : BoostStatus → Prop),
      (BOOST_ACTIVE_PSI c < m → P .Active) →
      (m ≤ BOOST_ACTIVE_PSI c → c.ATMOSPHERIC_PRESSURE_PSI * (9 / 10) < m →
        P .AtmosphericNoBoost) →
      (m ≤ BOOST_ACTIVE_PSI c → m ≤ c.ATMOSPHERIC_PRESSURE_PSI * (9 / 10) →
        P .VacuumNoBoost) →
      P (boostStatus c m) := by
    intro m P hA hB hC
    rcases le_or_lt m (BOOST_ACTIVE_PSI c) with h1 | h1
    · rcases le_or_lt m (c.ATMOSPHERIC_PRESSURE_PSI * (9 / 10)) with h2 | h2
      · simpa [boostStatus, not_lt.mpr h1, not_lt.mpr h2] using hC h1 h2
      · simpa [boostStatus, not_lt.mpr h1, h2] using hB h1 h2
    · simpa [boostStatus, h1] using hA h1
  refine ⟨?_, ?_, ?_, ?_⟩
  · exact step map (fun b => (b = .Active ↔ BOOST_ACTIVE_PSI c < map))
      (fun h1 => by simp [h1]) (fun h1 _ => by simp [not_lt.mpr h1])
      (fun h1 _ => by simp [not_lt.mpr h1])
  · exact step map (fun b => (b = .AtmosphericNoBoost ↔
        (map ≤ BOOST_ACTIVE_PSI c ∧ c.ATMOSPHERIC_PRESSURE_PSI * (9 / 10) < map)))
      (fun h1 => by simp [h1.not_le]) (fun h1 h2 => by simp [h1, h2])
      (fun h1 h2 => by simp [h1, not_lt.mpr h2])
  · exact step map (fun b => (b = .VacuumNoBoost ↔
        (map ≤ BOOST_ACTIVE_PSI c ∧ map ≤ c.ATMOSPHERIC_PRESSURE_PSI * (9 / 10))))
      (fun h1 => by simp [h1.not_le]) (fun h1 h2 => by simp [h1, h2.not_le])
      (fun h1 h2 => by simp [h1, h2])
  · exact step (BOOST_ACTIVE_PSI c)
      (fun b => (b = .AtmosphericNoBoost ∨ b = .VacuumNoBoost))
      (fun h1 => absurd h1 (lt_irrefl _))
      (fun _ _ => Or.inl rfl) (fun _ _ => Or.inr rfl)

lemma foldl_deque_length (vs : List ℚ) : ∀ xs : List ℚ, xs.length ≤ 450 →
    (List.foldl (dequeAppend 450) xs vs).length ≤ 450 := by
  induction vs with
  | nil => intro xs h; simpa using h
  | cons v tl ih =>
      intro xs h
      rw [List.foldl_cons]
      refine ih _ ?_
      simp only [dequeAppend]
      split <;> simp_all <;> omega

lemma foldl_deque_full (vs : List ℚ) : ∀ xs : List ℚ, xs.length = 450 →
    List.foldl (dequeAppend 450) xs vs = (xs ++ vs).drop vs.length := by
  induction vs with
  | nil => intro xs _; simp
  | cons v tl ih =>
      intro xs hxs
      have h1 : dequeAppend 450 xs v = (xs ++ [v]).drop 1 := by
        simp [dequeAppend, hxs]
      have hA : xs ++ v :: tl = (xs ++ [v]) ++ tl := by simp
      rw [List.foldl_cons, h1, ih _ (by simp [hxs]), hA]
      generalize hB : xs ++ [v] = A
      have hlA : A.length = 451 := by rw [← hB]; simp [hxs]
      rw [List.drop_append_eq_append_drop, List.drop_append_eq_append_drop,
        List.drop_drop, List.length_drop, hlA, List.length_cons]
      congr 1 <;> (congr 1 <;> omega)

/-- C6: the rolling MAP history has fixed capacity 450 with ring-buffer
semantics: starting from its initial contents (450 zeros), its length never
exceeds 450, and once at least 450 values have been appended it holds exactly
the last 450 appended values in arrival order, the older ones evicted. -/
theorem C6_map_history_ring_buffer (vs : List ℚ) :
    (appendAll vs).length ≤ 450 ∧
    (450 ≤ vs.length → appendAll vs = vs.drop (vs.length - 450)) := by
  constructor
  · exact foldl_deque_length vs map_history_init (by simp [map_history_init])
  · intro h
    rw [appendAll, foldl_deque_full vs map_history_init (by simp [map_history_init]),
      List.drop_append_eq_append_drop,
      List.drop_eq_nil_of_le (by simp [map_history_init]; omega)]
    simp [map_history_init]

theorem C6_witness :
    (appendAll (List.replicate 451 (1 : ℚ))).length ≤ 450 ∧
    appendAll (List.replicate 451 (1 : ℚ)) =
      (List.replicate 451 (1 : ℚ)).drop ((List.replicate 451 (1 : ℚ)).length - 450) :=
  ⟨(C6_map_history_ring_buffer (List.replicate 451 (1 : ℚ))).1,
    (C6_map_history_ring_buffer (List.replicate 451 (1 : ℚ))).2 (by simp)⟩

lemma exp_le_taylor8 (x a : ℝ) (hx : |x| ≤ 1)
    (h : (∑ i ∈ Finset.range 8, x ^ i / i.factorial) + x ^ 8 * (9 / (40320 * 8)) ≤ a) :
    Real.exp x ≤ a := by
  have hb := @Real.exp_bound x hx 8 (by norm_num)
  have h8 : |x| ^ 8 = x ^ 8 := by
    rw [← abs_pow]
    exact abs_of_nonneg (by positivity)
  rw [h8] at hb
  have h2 := (abs_le.mp hb).2
  norm_num [Nat.factorial] at h2
  linarith

lemma taylor8_le_exp (x a : ℝ) (hx : |x| ≤ 1)
    (h : a ≤ (∑ i ∈ Finset.range 8, x ^ i / i.factorial) - x ^ 8 * (9 / (40320 * 8))) :
    a ≤ Real.exp x := by
  have hb := @Real.exp_bound x hx 8 (by norm_num)
  have h8 : |x| ^ 8 = x ^ 8 := by
    rw [← abs_pow]
    exact abs_of_nonneg (by positivity)
  rw [h8] at hb
  have h2 := (abs_le.mp hb).1
  norm_num [Nat.factorial] at h2
  linarith

lemma log_base4000_lb : (-0.09456435 : ℝ) ≤ Real.log (5243 / 5763) := by
  rw [Real.le_log_iff_exp_le (by norm_num)]
  refine exp_le_taylor8 _ _ (abs_le.mpr ⟨by norm_num, by norm_num⟩) ?_
  norm_num [Finset.sum_range_succ, Nat.factorial]

lemma log_base4000_ub : Real.log (5243 / 5763) ≤ -0.09456428 := by
  rw [Real.log_le_iff_le_exp (by norm_num)]
  refine taylor8_le_exp _ _ (abs_le.mpr ⟨by norm_num, by norm_num⟩) ?_
  norm_num [Finset.sum_range_succ, Nat.factorial]

lemma log_base300_lb : (0.0067445 : ℝ) ≤ Real.log (1934 / 1921) := by
  rw [Real.le_log_iff_exp_le (by norm_num)]
  refine exp_le_taylor8 _ _ (abs_le.mpr ⟨by norm_num, by norm_num⟩) ?_
  norm_num [Finset.sum_range_succ, Nat.factorial]

lemma log_base300_ub : Real.log (1934 / 1921) ≤ 0.0067446 := by
  rw [Real.log_le_iff_le_exp (by norm_num)]
  refine taylor8_le_exp _ _ (abs_le.mpr ⟨by norm_num, by norm_num⟩) ?_
  norm_num [Finset.sum_range_succ, Nat.factorial]

lemma rpow_base4000_bounds :
    (0.6083 : ℝ) ≤
      (5243 / 5763 : ℝ) ^ ((9.80665 * 0.0289644) / (8.31447 * 0.0065) : ℝ) ∧
    (5243 / 5763 : ℝ) ^ ((9.80665 * 0.0289644) / (8.31447 * 0.0065) : ℝ) ≤ 0.6084 := by
  have hb : (0 : ℝ) < 5243 / 5763 := by norm_num
  have hE : (0 : ℝ) ≤ (9.80665 * 0.0289644) / (8.31447 * 0.0065) := by positivity
  have hm1 : (-0.497010 : ℝ) ≤
      Real.log (5243 / 5763) * ((9.80665 * 0.0289644) / (8.31447 * 0.0065)) := by
    have hm := mul_le_mul_of_nonneg_right log_base4000_lb hE
    have hc : (-0.497010 : ℝ) ≤
        -0.09456435 * ((9.80665 * 0.0289644) / (8.31447 * 0.0065)) := by norm_num
    linarith
  have hm2 : Real.log (5243 / 5763) * ((9.80665 * 0.0289644) / (8.31447 * 0.0065)) ≤
      -0.497009 := by
    have hm := mul_le_mul_of_nonneg_right log_base4000_ub hE
    have hc : (-0.09456428 : ℝ) * ((9.80665 * 0.0289644) / (8.31447 * 0.0065)) ≤
        -0.497009 := by norm_num
    linarith
  rw [Real.rpow_def_of_pos hb]
  constructor
  · refine le_trans ?_ (Real.exp_le_exp.mpr hm1)
    refine taylor8_le_exp _ _ (abs_le.mpr ⟨by norm_num, by norm_num⟩) ?_
    norm_num [Finset.sum_range_succ, Nat.factorial]
  · refine le_trans (Real.exp_le_exp.mpr hm2) ?_
    refine exp_le_taylor8 _ _ (abs_le.mpr ⟨by norm_num, by norm_num⟩) ?_
    norm_num [Finset.sum_range_succ, Nat.factorial]

lemma rpow_base300_bounds :
    (1.03608 : ℝ) ≤
      (1934 / 1921 : ℝ) ^ ((9.80665 * 0.0289644) / (8.31447 * 0.0065) : ℝ) ∧
    (1934 / 1921 : ℝ) ^ ((9.80665 * 0.0289644) / (8.31447 * 0.0065) : ℝ) ≤ 1.03609 := by
  have hb : (0 : ℝ) < 1934 / 1921 := by norm_num
  have hE : (0 : ℝ) ≤ (9.80665 * 0.0289644) / (8.31447 * 0.0065) := by positivity
  have hm1 : (0.0354476 : ℝ) ≤
      Real.log (1934 / 1921) * ((9.80665 * 0.0289644) / (8.31447 * 0.0065)) := by
    have hm := mul_le_mul_of_nonneg_right log_base300_lb hE
    have hc : (0.0354476 : ℝ) ≤
        0.0067445 * ((9.80665 * 0.0289644) / (8.31447 * 0.0065)) := by norm_num
    linarith
  have hm2 : Real.log (1934 / 1921) * ((9.80665 * 0.0289644) / (8.31447 * 0.0065)) ≤
      0.0354482 := by
    have hm := mul_le_mul_of_nonneg_right log_base300_ub hE
    have hc : (0.0067446 : ℝ) * ((9.80665 * 0.0289644) / (8.31447 * 0.0065)) ≤
        0.0354482 := by norm_num
    linarith
  rw [Real.rpow_def_of_pos hb]
  constructor
  · refine le_trans ?_ (Real.exp_le_exp.mpr hm1)
    refine taylor8_le_exp _ _ (abs_le.mpr ⟨by norm_num, by norm_num⟩) ?_
    norm_num [Finset.sum_range_succ, Nat.factorial]
  · refine le_trans (Real.exp_le_exp.mpr hm2) ?_
    refine exp_le_taylor8 _ _ (abs_le.mpr ⟨by norm_num, by norm_num⟩) ?_
    norm_num [Finset.sum_range_succ, Nat.factorial]

/-- C3: `calculate_atmospheric_pressure` returns `0` whenever
`0.0065 * h >= 288.15` (never raising a domain error), otherwise computes the
international barometric formula `101.325 * (1 - 0.0065*h/288.15) ^
(9.80665*0.0289644/(8.31447*0.0065))` converted to PSI by the factor
`0.14503773773`; at `h = 0` the result is within 0.1 of 14.70 PSI, at
`h = 4000` within 0.01 of 8.94 PSI, and at `h = -300` within 0.01 of
15.23 PSI. -/
theorem C3_barometric_formula :
    (∀ h : ℝ, 288.15 ≤ 0.0065 * h → calculate_atmospheric_pressure h = 0) ∧
    (∀ h : ℝ, 0.0065 * h < 288.15 →
      calculate_atmospheric_pressure h =
        101.325 * (1 - 0.0065 * h / 288.15) ^
          ((9.80665 * 0.0289644) / (8.31447 * 0.0065) : ℝ) * 0.14503773773) ∧
    |calculate_atmospheric_pressure 0 - 14.70| ≤ 0.1 ∧
    |calculate_atmospheric_pressure 4000 - 8.94| ≤ 0.01 ∧
    |calculate_atmospheric_pressure (-300) - 15.23| ≤ 0.01 := by
  refine ⟨?_, ?_, ?_, ?_, ?_⟩
  · intro h hh
    rw [calculate_atmospheric_pressure, if_pos hh]
  · intro h hh
    rw [calculate_atmospheric_pressure, if_neg (not_le.mpr hh)]
  · rw [calculate_atmospheric_pressure, if_neg (by norm_num)]
    have hb : (1 - 0.0065 * (0 : ℝ) / 288.15) = 1 := by norm_num
    rw [hb, Real.one_rpow, abs_le]
    norm_num
  · rw [calculate_atmospheric_pressure, if_neg (by norm_num)]
    have hb : (1 - 0.0065 * (4000 : ℝ) / 288.15) = 5243 / 5763 := by norm_num
    rw [hb, abs_le]
    obtain ⟨hlo, hhi⟩ := rpow_base4000_bounds
    constructor <;> nlinarith
  · rw [calculate_atmospheric_pressure, if_neg (by norm_num)]
    have hb : (1 - 0.0065 * (-300 : ℝ) / 288.15) = 1934 / 1921 := by norm_num
    rw [hb, abs_le]
    obtain ⟨hlo, hhi⟩ := rpow_base300_bounds
    constructor <;> nlinarith

theorem C3_witness :
    calculate_atmospheric_pressure 100000 = 0 ∧
    calculate_atmospheric_pressure 4000 =
      101.325 * (1 - 0.0065 * (4000 : ℝ) / 288.15) ^
        ((9.80665 * 0.0289644) / (8.31447 * 0.0065) : ℝ) * 0.14503773773 :=
  ⟨C3_barometric_formula.1 100000 (by norm_num),
    C3_barometric_formula.2.1 4000 (by norm_num)⟩

/-- C8: over the validated elevation domain `[-400, 8000]`, the computed
atmospheric pressure is strictly decreasing in elevation: `h1 < h2` implies
`calculate_atmospheric_pressure h1 > calculate_atmospheric_pressure h2`. -/
theorem C8_pressure_strictly_decreasing (h1 h2 : ℝ) (hlo : -400 ≤ h1)
    (hlt : h1 < h2) (hhi : h2 ≤ 8000) :
    calculate_atmospheric_pressure h2 < calculate_atmospheric_pressure h1 := by
  have hg2 : ¬ (288.15 : ℝ) ≤ 0.0065 * h2 := by
    rw [not_le]
    linarith
  have hg1 : ¬ (288.15 : ℝ) ≤ 0.0065 * h1 := by
    rw [not_le]
    linarith
  rw [calculate_atmospheric_pressure, calculate_atmospheric_pressure,
    if_neg hg1, if_neg hg2]
  have hbpos : (0 : ℝ) ≤ 1 - 0.0065 * h2 / 288.15 := by
    rw [sub_nonneg, div_le_one (by norm_num)]
    linarith
  have hblt : 1 - 0.0065 * h2 / 288.15 < 1 - 0.0065 * h1 / 288.15 := by
    rw [sub_lt_sub_iff_left, div_lt_div_iff_of_pos_right (by norm_num)]
    linarith
  have hE : (0 : ℝ) < (9.80665 * 0.0289644) / (8.31447 * 0.0065) := by positivity
  have hr := Real.rpow_lt_rpow hbpos hblt hE
  nlinarith

theorem C8_witness : calculate_atmospheric_pressure 4000 <
    calculate_atmospheric_pressure 0 :=
  C8_pressure_strictly_decreasing 0 4000 (by norm_num) (by norm_num) (by norm_num)

end Tuning
